import Mathlib

/-!
Shallow embedding of the LS2D ERA5 reading / forcing-computation core
(`src/read_ERA5.py`): the `Read_ERA` constructor (loading, vertical-axis
normalisation, derived fields, time-synchronisation check) and
`Read_ERA.calculate_forcings` (box means, advective tendencies under the
three schemes, geostrophic wind diagnosis and interpolation, Coriolis and
total tendencies).

Machine floats are modelled by exact rationals; the transcendental numpy /
IFS helper functions that live in repository modules not present under
`src/` (spatial_tools, IFS_tools, finite_difference, messages) are either
modelled from the spec or kept as parameters of the embedding (the `Prims`
structure), so every theorem below is proved for an arbitrary
interpretation of those primitives.
-/

/-- A 4-dimensional field (time, level, latitude, longitude), as stored on
the `Read_ERA` object.  Latitude/longitude/level indices are integers so
that Python's negative-offset indexing into the halo is representable. -/
abbrev F4 : Type := ℕ → ℤ → ℤ → ℤ → ℚ

/-- A 3-dimensional field (time, latitude, longitude). -/
abbrev F3 : Type := ℕ → ℤ → ℤ → ℚ

/-- Modelled from the spec: the numerical primitives and physical-constant
tables provided by the repository modules `IFS_tools`, `spatial_tools` and
numpy that are not part of `src/` (sin, exp, the hybrid sigma-pressure
half-level tables, the hydrostatic integration helper, the great-circle
distance estimates).  They are parameters of the embedding: every theorem
holds for an arbitrary interpretation. -/
structure Prims where
  sin : ℚ → ℚ
  exp : ℚ → ℚ
  sqrt : ℚ → ℚ
  pi : ℚ
  grav : ℚ
  Rd : ℚ
  cpd : ℚ
  Lv : ℚ
  calc_exner : ℚ → ℚ
  calc_virtual_temp : ℚ → ℚ → ℚ → ℚ → ℚ → ℚ → ℚ
  calc_half_level_pressure : ℚ → ℤ → ℚ
  calc_half_level_Zg : (ℤ → ℚ) → (ℤ → ℚ) → ℤ → ℚ
  dlon : ℚ → ℚ → ℚ → ℚ
  dlat : ℚ → ℚ → ℚ

/-- The raw merged NetCDF contents of the four ERA5 streams, as seen through
`nc4.MFDataset` right after opening: time coordinates of the surface
analysis (`fsa`), model-level analysis (`fma`) and model-level forecast
(`fmf`) files, grid coordinates, dimension sizes, and the raw variables in
file orientation (level axis top-to-bottom, latitude axis north-to-south). -/
structure RawData where
  sfc_time : List ℚ
  fma_time : List ℚ
  fc_time : List ℚ
  latitude : List ℚ
  longitude : List ℚ
  nfull : ℕ
  nlat : ℕ
  nlon : ℕ
  u : F4
  v : F4
  w : F4
  t : F4
  q : F4
  clwc : F4
  ciwc : F4
  crwc : F4
  cswc : F4
  lnsp : F4
  mttswr : F4
  mttlwr : F4
  mttswrcs : F4
  mttlwrcs : F4
  skt : F3
  ishf : F3
  ie : F3
  tcc : F3
  fsr : F3
  flsr : F3
  z_pl : F4
  pl_levels : List ℚ

/-- The settings consumed by the core (`central_lat`, `central_lon`, and the
requested window already converted to hours since 1900-01-01, as done on
lines 113-114 of `read_ERA5.py`). -/
structure SettingsIn where
  central_lat : ℚ
  central_lon : ℚ
  start_h : ℚ
  end_h : ℚ

/-- The four per-stream file lists built by the constructor, together with
the file-system existence predicate consulted by `check_files` and by the
`nc4.MFDataset` opens. -/
structure FilesIn where
  an_sfc_files : List String
  an_model_files : List String
  an_pres_files : List String
  fc_model_files : List String
  fexists : String → Bool

/-- `np.argmin` over a list: index of the first occurrence of the minimum
(0 for the empty array, whose lookup numpy would reject). -/
def argminAux : List ℚ → ℕ → ℚ → ℕ → ℕ
  | [], bi, _, _ => bi
  | x :: xs, bi, bv, k => if x < bv then argminAux xs k x (k+1) else argminAux xs bi bv (k+1)

/-- First index attaining the minimum of a list, as `np.argmin`. -/
def argmin : List ℚ → ℕ
  | [] => 0
  | x :: xs => argminAux xs 0 x 1

/-- Python slice `l[a : b+1]` on a 1-dimensional coordinate array. -/
def listSlice (l : List ℚ) (a b : ℕ) : List ℚ := (l.drop a).take (b + 1 - a)

/-- 1-dimensional numpy indexing with Python semantics for negative
indices (`l[-k]` is `l[len l - k]`); out-of-range access, which numpy
rejects at run time and the spec declares undefined behaviour for
halo overruns, is modelled as the junk value 0. -/
def pyGet (l : List ℚ) (k : ℤ) : ℚ :=
  if k < 0 then l.getD (l.length - (-k).toNat) 0 else l.getD k.toNat 0

/-- `flip` of `read_ERA5.py` on a 4-dimensional array with `nlev` levels and
`nlat` latitudes: reverse the height axis and the latitude axis. -/
def flip4 (nlev nlat : ℤ) (A : F4) : F4 :=
  fun t l la lo => A t (nlev - 1 - l) (nlat - 1 - la) lo

/-- `flip` on a 3-dimensional array: reverse the latitude axis. -/
def flip3 (nlat : ℤ) (A : F3) : F3 :=
  fun t la lo => A t (nlat - 1 - la) lo

/-- Restriction of a raw 4-dimensional variable to the analysis time slice
`[t0 : t1+1]`: loaded time index t reads raw record t0 + t. -/
def shift4 (t0 : ℕ) (A : F4) : F4 :=
  fun t l la lo => A (t0 + t) l la lo

/-- Restriction of a raw 3-dimensional variable to a time slice. -/
def shift3 (t0 : ℕ) (A : F3) : F3 :=
  fun t la lo => A (t0 + t) la lo

/-- Modelled from the spec: `fd.grad2c` of the absent `finite_difference`
module — the symmetric one-point-offset centred difference
`(east - west) / (2 dx)`. -/
def grad2c (m p dx : ℚ) : ℚ := (p - m) / (2 * dx)

/-- Modelled from the spec: `fd.grad4c` of the absent `finite_difference`
module — the standard four-point centred stencil with offsets ±1, ±2. -/
def grad4c (mm m p pp dx : ℚ) : ℚ := (mm - 8 * m + 8 * p - pp) / (12 * dx)

/-- numpy `.mean(axis=(2,3))` of a pointwise expression over the rectangle
of rows `[j0, j1)` and columns `[i0, i1)`: sum divided by element count. -/
def stencilMean (g : ℤ → ℤ → ℚ) (j0 j1 i0 i1 : ℤ) : ℚ :=
  (∑ jj ∈ Finset.Ico j0 j1, ∑ ii ∈ Finset.Ico i0 i1, g jj ii) /
    (((Finset.Ico j0 j1).card * (Finset.Ico i0 i1).card : ℕ) : ℚ)

/-- Box mean of a 4-dimensional field over the averaging domain
`[j-n_av, j+n_av] × [i-n_av, i+n_av]` centred at the resolved grid point
(the `center4d` slice of `calculate_forcings`). -/
def boxMean4 (f : F4) (j i : ℕ) (n_av : ℕ) : ℕ → ℤ → ℚ :=
  fun t l => stencilMean (f t l) ((j : ℤ) - n_av) ((j : ℤ) + n_av + 1)
    ((i : ℤ) - n_av) ((i : ℤ) + n_av + 1)

/-- Box mean of a 3-dimensional field over the averaging domain
(the `center3d` slice of `calculate_forcings`). -/
def boxMean3 (f : F3) (j i : ℕ) (n_av : ℕ) : ℕ → ℚ :=
  fun t => stencilMean (f t) ((j : ℤ) - n_av) ((j : ℤ) + n_av + 1)
    ((i : ℤ) - n_av) ((i : ℤ) + n_av + 1)

/-- Insertion step of a stable sort of (pressure, value) pairs by pressure,
modelling the argsort that `scipy.interpolate.interp1d` performs on an
unsorted abscissa array. -/
def insertP (p : ℚ × ℚ) : List (ℚ × ℚ) → List (ℚ × ℚ)
  | [] => [p]
  | q :: t => if p.1 ≤ q.1 then p :: q :: t else q :: insertP p t

/-- Stable sort of (pressure, value) pairs by pressure. -/
def sortPairs : List (ℚ × ℚ) → List (ℚ × ℚ)
  | [] => []
  | p :: t => insertP p (sortPairs t)

/-- Piecewise-linear interpolation through a sorted list of points, with
linear extrapolation from the first (last) segment below (above) the data
range, as `scipy.interpolate.interp1d(..., fill_value='extrapolate')`.
Degenerate inputs that scipy rejects (fewer than two points) get junk
values. -/
def pwl : List (ℚ × ℚ) → ℚ → ℚ
  | [], _ => 0
  | [(_, y0)], _ => y0
  | [(x0, y0), (x1, y1)], x => y0 + (y1 - y0) * (x - x0) / (x1 - x0)
  | (x0, y0) :: (x1, y1) :: q :: t, x =>
      if x ≤ x1 then y0 + (y1 - y0) * (x - x0) / (x1 - x0)
      else pwl ((x1, y1) :: q :: t) x

/-- `scipy.interpolate.interp1d(xs, ys, fill_value='extrapolate')(x)`:
sort the sample points by abscissa, then evaluate piecewise linearly with
extrapolation beyond the ends. -/
def interp1d (xs ys : List ℚ) (x : ℚ) : ℚ := pwl (sortPairs (xs.zip ys)) x

/-- The in-memory dataset built by the `Read_ERA` constructor: every
attribute assigned on `self` during loading and field derivation
(lines 127-229 of `read_ERA5.py`). -/
structure ERA5State where
  lats : List ℚ
  lons : List ℚ
  time : List ℚ
  time_fc : List ℚ
  time_sec : List ℚ
  nfull : ℕ
  nhalf : ℕ
  nlat : ℕ
  nlon : ℕ
  ntime : ℕ
  i : ℕ
  j : ℕ
  u : F4
  v : F4
  w : F4
  T : F4
  q : F4
  qc : F4
  qi : F4
  qr : F4
  qs : F4
  Ts : F3
  H : F3
  wqs : F3
  cc : F3
  z0m : F3
  z0h : F3
  z_p : F4
  p_p : List ℚ
  ql : F4
  qt : F4
  ps : F3
  Tv : F4
  ph : F4
  zh : F4
  p : F4
  z : F4
  exn : F4
  th : F4
  thl : F4
  rho : F4
  wls : F4
  U : F4
  Tvs : F3
  rhos : F3
  exns : F3
  wths : F3
  fc : ℚ
  dthldt_sw : F4
  dthldt_lw : F4
  dthldt_sw_cs : F4
  dthldt_lw_cs : F4

/-- Index of the analysis record nearest the requested start time
(`t0_an`, line 116): argmin over the surface-analysis time coordinate. -/
def t0_an (st : SettingsIn) (raw : RawData) : ℕ :=
  argmin (raw.sfc_time.map (fun x => |x - st.start_h|))

/-- Index of the analysis record nearest the requested end time (line 117). -/
def t1_an (st : SettingsIn) (raw : RawData) : ℕ :=
  argmin (raw.sfc_time.map (fun x => |x - st.end_h|))

/-- Index of the forecast record nearest the requested start time (line 119). -/
def t0_fc (st : SettingsIn) (raw : RawData) : ℕ :=
  argmin (raw.fc_time.map (fun x => |x - st.start_h|))

/-- Index of the forecast record nearest the requested end time (line 120). -/
def t1_fc (st : SettingsIn) (raw : RawData) : ℕ :=
  argmin (raw.fc_time.map (fun x => |x - st.end_h|))

/-- Latitudes with the axis reversed to south-to-north (line 127). -/
def ld_lats (raw : RawData) : List ℚ := raw.latitude.reverse

/-- Resolved nearest longitude index (line 148). -/
def ld_i (st : SettingsIn) (raw : RawData) : ℕ :=
  argmin (raw.longitude.map (fun x => |x - st.central_lon|))

/-- Resolved nearest latitude index on the reversed axis (line 149). -/
def ld_j (st : SettingsIn) (raw : RawData) : ℕ :=
  argmin ((ld_lats raw).map (fun x => |x - st.central_lat|))

/-- Analysis time coordinate clipped to the window (line 129). -/
def ld_time (st : SettingsIn) (raw : RawData) : List ℚ :=
  listSlice raw.fma_time (t0_an st raw) (t1_an st raw)

/-- Forecast time coordinate clipped to its own window (line 130). -/
def ld_time_fc (st : SettingsIn) (raw : RawData) : List ℚ :=
  listSlice raw.fc_time (t0_fc st raw) (t1_fc st raw)

/-- A loaded model-level analysis variable: clipped to the analysis window
and flipped in the level and latitude axes (lines 159-167). -/
def ld_ml (st : SettingsIn) (raw : RawData) (A : F4) : F4 :=
  flip4 (raw.nfull : ℤ) (raw.nlat : ℤ) (shift4 (t0_an st raw) A)

/-- A loaded surface analysis variable: clipped and latitude-flipped. -/
def ld_sfc (st : SettingsIn) (raw : RawData) (A : F3) : F3 :=
  flip3 (raw.nlat : ℤ) (shift3 (t0_an st raw) A)

/-- Logarithm of surface pressure, read at raw level index 0 (line 168). -/
def ld_lnps (st : SettingsIn) (raw : RawData) : F3 :=
  flip3 (raw.nlat : ℤ) (fun t la lo => raw.lnsp (t0_an st raw + t) 0 la lo)

/-- Surface pressure `ps = exp(lnps)` (line 192). -/
def ld_ps (P : Prims) (st : SettingsIn) (raw : RawData) : F3 :=
  fun t la lo => P.exp (ld_lnps st raw t la lo)

/-- Total condensate `ql = qc + qi + qr + qs` (line 190). -/
def ld_ql (st : SettingsIn) (raw : RawData) : F4 :=
  fun t l la lo => ld_ml st raw raw.clwc t l la lo + ld_ml st raw raw.ciwc t l la lo
    + ld_ml st raw raw.crwc t l la lo + ld_ml st raw raw.cswc t l la lo

/-- Total specific humidity `qt = q + ql` (line 191). -/
def ld_qt (st : SettingsIn) (raw : RawData) : F4 :=
  fun t l la lo => ld_ml st raw raw.q t l la lo + ld_ql st raw t l la lo

/-- Virtual temperature on full levels (line 193). -/
def ld_Tv (P : Prims) (st : SettingsIn) (raw : RawData) : F4 :=
  fun t l la lo => P.calc_virtual_temp (ld_ml st raw raw.t t l la lo)
    (ld_ml st raw raw.q t l la lo) (ld_ml st raw raw.clwc t l la lo)
    (ld_ml st raw raw.ciwc t l la lo) (ld_ml st raw raw.crwc t l la lo)
    (ld_ml st raw raw.cswc t l la lo)

/-- Half-level pressure from the hybrid coefficient table, per column
(lines 200-203). -/
def ld_ph (P : Prims) (st : SettingsIn) (raw : RawData) : F4 :=
  fun t k la lo => P.calc_half_level_pressure (ld_ps P st raw t la lo) k

/-- Half-level geopotential height by hydrostatic integration, per column
(line 204). -/
def ld_zh (P : Prims) (st : SettingsIn) (raw : RawData) : F4 :=
  fun t k la lo => P.calc_half_level_Zg (fun kk => ld_ph P st raw t kk la lo)
    (fun kk => ld_Tv P st raw t kk la lo) k

/-- Full-level pressure `p = 0.5 * (ph[:,1:] + ph[:,:-1])` (line 207). -/
def ld_p (P : Prims) (st : SettingsIn) (raw : RawData) : F4 :=
  fun t k la lo => 0.5 * (ld_ph P st raw t (k+1) la lo + ld_ph P st raw t k la lo)

/-- Full-level height `z = 0.5 * (zh[:,1:] + zh[:,:-1])` (line 208). -/
def ld_z (P : Prims) (st : SettingsIn) (raw : RawData) : F4 :=
  fun t k la lo => 0.5 * (ld_zh P st raw t (k+1) la lo + ld_zh P st raw t k la lo)

/-- Exner function on full levels (line 211). -/
def ld_exn (P : Prims) (st : SettingsIn) (raw : RawData) : F4 :=
  fun t l la lo => P.calc_exner (ld_p P st raw t l la lo)

/-- Potential temperature `th = T / exn` (line 212). -/
def ld_th (P : Prims) (st : SettingsIn) (raw : RawData) : F4 :=
  fun t l la lo => ld_ml st raw raw.t t l la lo / ld_exn P st raw t l la lo

/-- Liquid water potential temperature
`thl = th - Lv / (cpd * exn) * ql` (line 213). -/
def ld_thl (P : Prims) (st : SettingsIn) (raw : RawData) : F4 :=
  fun t l la lo => ld_th P st raw t l la lo
    - P.Lv / (P.cpd * ld_exn P st raw t l la lo) * ld_ql st raw t l la lo

/-- Full-level density `rho = p / (Rd * Tv)` (line 214). -/
def ld_rho (P : Prims) (st : SettingsIn) (raw : RawData) : F4 :=
  fun t l la lo => ld_p P st raw t l la lo / (P.Rd * ld_Tv P st raw t l la lo)

/-- Height-coordinate vertical velocity `wls = -w / (rho * grav)` (line 215). -/
def ld_wls (P : Prims) (st : SettingsIn) (raw : RawData) : F4 :=
  fun t l la lo => -ld_ml st raw raw.w t l la lo
    / (ld_rho P st raw t l la lo * P.grav)

/-- Absolute horizontal wind `U = (u^2 + v^2)^0.5` (line 216). -/
def ld_U (P : Prims) (st : SettingsIn) (raw : RawData) : F4 :=
  fun t l la lo => P.sqrt (ld_ml st raw raw.u t l la lo ^ 2
    + ld_ml st raw raw.v t l la lo ^ 2)

/-- Surface virtual temperature estimated from the skin temperature and the
lowest-model-level humidity (line 218); the condensate arguments defaulted
in the two-argument Python call are modelled from the spec as zero. -/
def ld_Tvs (P : Prims) (st : SettingsIn) (raw : RawData) : F3 :=
  fun t la lo => P.calc_virtual_temp (ld_sfc st raw raw.skt t la lo)
    (ld_ml st raw raw.q t 0 la lo) 0 0 0 0

/-- Surface density `rhos = ph[:,0] / (Rd * Tvs)` (line 219). -/
def ld_rhos (P : Prims) (st : SettingsIn) (raw : RawData) : F3 :=
  fun t la lo => ld_ph P st raw t 0 la lo / (P.Rd * ld_Tvs P st raw t la lo)

/-- Surface Exner function (line 220). -/
def ld_exns (P : Prims) (st : SettingsIn) (raw : RawData) : F3 :=
  fun t la lo => P.calc_exner (ld_ps P st raw t la lo)

/-- Surface kinematic heat flux `wths = H / (rhos * cpd * exns)`
(line 221), with `H = flip(-ishf)` (line 178). -/
def ld_wths (P : Prims) (st : SettingsIn) (raw : RawData) : F3 :=
  fun t la lo => ld_sfc st raw (fun tt laa loo => -raw.ishf tt laa loo) t la lo
    / (ld_rhos P st raw t la lo * P.cpd * ld_exns P st raw t la lo)

/-- Geopotential height on pressure levels `z_p = flip(z) / grav`
(line 185). -/
def ld_z_p (P : Prims) (st : SettingsIn) (raw : RawData) : F4 :=
  fun t l la lo => flip4 ((raw.pl_levels.length : ℤ)) (raw.nlat : ℤ)
    (shift4 (t0_an st raw) raw.z_pl) t l la lo / P.grav

/-- Pressure levels in Pa, flipped bottom-to-top (line 186). -/
def ld_p_p (raw : RawData) : List ℚ := raw.pl_levels.reverse.map (fun x => x * 100)

/-- Coriolis parameter `fc = 2 * 7.2921e-5 * sin(deg2rad(central_lat))`
(line 223), evaluated at the requested central latitude of the settings. -/
def ld_fc (P : Prims) (st : SettingsIn) : ℚ :=
  2 * 7.2921e-5 * P.sin (st.central_lat * P.pi / 180)

/-- A forecast radiative temperature tendency converted from T to thl:
`flip(fmf[var][t_an]) / exn` (lines 171-174 and 226-229).  The time slice
is `t_an`, derived from the analysis time coordinate. -/
def ld_dthldt (P : Prims) (st : SettingsIn) (raw : RawData) (A : F4) : F4 :=
  fun t l la lo => ld_ml st raw A t l la lo / ld_exn P st raw t l la lo

/-- Elapsed seconds since the first record
`time_sec = (time - time[0]) * 3600` (line 132). -/
def ld_time_sec (st : SettingsIn) (raw : RawData) : List ℚ :=
  (ld_time st raw).map (fun h => (h - (ld_time st raw).headD 0) * 3600)

/-- The dataset assembled by a successful run of the `Read_ERA`
constructor. -/
def mk_state (P : Prims) (st : SettingsIn) (raw : RawData) : ERA5State :=
  { lats := ld_lats raw
    lons := raw.longitude
    time := ld_time st raw
    time_fc := ld_time_fc st raw
    time_sec := ld_time_sec st raw
    nfull := raw.nfull
    nhalf := raw.nfull + 1
    nlat := raw.nlat
    nlon := raw.nlon
    ntime := (ld_time st raw).length
    i := ld_i st raw
    j := ld_j st raw
    u := ld_ml st raw raw.u
    v := ld_ml st raw raw.v
    w := ld_ml st raw raw.w
    T := ld_ml st raw raw.t
    q := ld_ml st raw raw.q
    qc := ld_ml st raw raw.clwc
    qi := ld_ml st raw raw.ciwc
    qr := ld_ml st raw raw.crwc
    qs := ld_ml st raw raw.cswc
    Ts := ld_sfc st raw raw.skt
    H := ld_sfc st raw (fun tt laa loo => -raw.ishf tt laa loo)
    wqs := ld_sfc st raw (fun tt laa loo => -raw.ie tt laa loo)
    cc := ld_sfc st raw raw.tcc
    z0m := ld_sfc st raw raw.fsr
    z0h := ld_sfc st raw (fun tt laa loo => P.exp (raw.flsr tt laa loo))
    z_p := ld_z_p P st raw
    p_p := ld_p_p raw
    ql := ld_ql st raw
    qt := ld_qt st raw
    ps := ld_ps P st raw
    Tv := ld_Tv P st raw
    ph := ld_ph P st raw
    zh := ld_zh P st raw
    p := ld_p P st raw
    z := ld_z P st raw
    exn := ld_exn P st raw
    th := ld_th P st raw
    thl := ld_thl P st raw
    rho := ld_rho P st raw
    wls := ld_wls P st raw
    U := ld_U P st raw
    Tvs := ld_Tvs P st raw
    rhos := ld_rhos P st raw
    exns := ld_exns P st raw
    wths := ld_wths P st raw
    fc := ld_fc P st
    dthldt_sw := ld_dthldt P st raw raw.mttswr
    dthldt_lw := ld_dthldt P st raw raw.mttlwr
    dthldt_sw_cs := ld_dthldt P st raw raw.mttswrcs
    dthldt_lw_cs := ld_dthldt P st raw raw.mttlwrcs }

/-- `np.all(a == b)` on two 1-dimensional coordinate arrays, with numpy
broadcasting: equal-length arrays compare elementwise; an array of length
1 broadcasts against every entry of the other; for the remaining
(non-broadcastable) length combinations the elementwise comparison of
this numpy era returns the scalar False, so the whole test is false. -/
def npAllEq (a b : List ℚ) : Bool :=
  if a.length = b.length then decide (a = b)
  else if a.length = 1 then decide (∀ x ∈ b, x = a.headD 0)
  else if b.length = 1 then decide (∀ x ∈ a, x = b.headD 0)
  else false

/-- The `Read_ERA` constructor (lines 96-229 of `read_ERA5.py`).
`check_files` (lines 47-50) calls the logging helper `message` of the
absent `messages` module; modelled from the spec, that side effect is
informational only and does not abort, so the missing-file failure is
raised by the subsequent `nc4.MFDataset` opens (lines 102-105), before any
field is read or derived.  The time-synchronisation assertion (line 138)
aborts the constructor when `np.all(time == time_fc)` is false; note that
numpy broadcasting lets the assertion pass when one clipped coordinate has
a single record whose value equals every entry of the other, even though
the lengths differ. -/
def Read_ERA_init (P : Prims) (st : SettingsIn) (files : FilesIn)
    (raw : RawData) : Except String ERA5State :=
  if files.an_sfc_files.all files.fexists then
    if files.an_model_files.all files.fexists then
      if files.an_pres_files.all files.fexists then
        if files.fc_model_files.all files.fexists then
          if npAllEq (ld_time st raw) (ld_time_fc st raw) then
            Except.ok (mk_state P st raw)
          else Except.error "Analysis and forecast times are not synced"
        else Except.error "No such file or directory in model-level forecast stream"
      else Except.error "No such file or directory in pressure-level analysis stream"
    else Except.error "No such file or directory in model-level analysis stream"
  else Except.error "No such file or directory in surface analysis stream"

/-- The outputs created by one run of `calculate_forcings` for one
configuration `(n_av, method)`: all attributes assigned on `self` during
lines 256-364 of `read_ERA5.py`.  For an unknown scheme the Python call
dies with an unhandled `NameError` before the geostrophic wind, Coriolis
and total tendencies exist, so no complete record of this shape is ever
produced in that case. -/
structure Forcings where
  z_mean : ℕ → ℤ → ℚ
  p_mean : ℕ → ℤ → ℚ
  thl_mean : ℕ → ℤ → ℚ
  qt_mean : ℕ → ℤ → ℚ
  u_mean : ℕ → ℤ → ℚ
  v_mean : ℕ → ℤ → ℚ
  U_mean : ℕ → ℤ → ℚ
  wls_mean : ℕ → ℤ → ℚ
  rho_mean : ℕ → ℤ → ℚ
  ps_mean : ℕ → ℚ
  wth_mean : ℕ → ℚ
  wq_mean : ℕ → ℚ
  cc_mean : ℕ → ℚ
  z0m_mean : ℕ → ℚ
  z0h_mean : ℕ → ℚ
  dtthl_sw_mean : ℕ → ℤ → ℚ
  dtthl_lw_mean : ℕ → ℤ → ℚ
  dtthl_sw_cs_mean : ℕ → ℤ → ℚ
  dtthl_lw_cs_mean : ℕ → ℤ → ℚ
  dtthl_advec : ℕ → ℤ → ℚ
  dtqt_advec : ℕ → ℤ → ℚ
  dtu_advec : ℕ → ℤ → ℚ
  dtv_advec : ℕ → ℤ → ℚ
  ug : ℕ → ℤ → ℚ
  vg : ℕ → ℤ → ℚ
  dtu_coriolis : ℕ → ℤ → ℚ
  dtv_coriolis : ℕ → ℤ → ℚ
  dtu_total : ℕ → ℤ → ℚ
  dtv_total : ℕ → ℤ → ℚ

/-- Local east-west grid spacing estimate
`dx = st.dlon(lons[i-1], lons[i+1], lats[j]) / 2` (line 282). -/
def dx_est (P : Prims) (s : ERA5State) : ℚ :=
  P.dlon (pyGet s.lons ((s.i : ℤ) - 1)) (pyGet s.lons ((s.i : ℤ) + 1))
    (pyGet s.lats (s.j : ℤ)) / 2

/-- Local north-south grid spacing estimate
`dy = st.dlat(lats[j-1], lats[j+1]) / 2` (line 283). -/
def dy_est (P : Prims) (s : ERA5State) : ℚ :=
  P.dlat (pyGet s.lats ((s.j : ℤ) - 1)) (pyGet s.lats ((s.j : ℤ) + 1)) / 2

/-- Centre-to-centre distance of the east and west boxes
(`distance_WE`, line 330). -/
def distWE (P : Prims) (s : ERA5State) (n_av : ℕ) : ℚ :=
  P.dlon (pyGet s.lons ((s.i : ℤ) - n_av - 1)) (pyGet s.lons ((s.i : ℤ) + n_av + 1))
    (pyGet s.lats (s.j : ℤ))

/-- Centre-to-centre distance of the north and south boxes
(`distance_NS`, line 331). -/
def distNS (P : Prims) (s : ERA5State) (n_av : ℕ) : ℚ :=
  P.dlat (pyGet s.lats ((s.j : ℤ) - n_av - 1)) (pyGet s.lats ((s.j : ℤ) + n_av + 1))

/-- Mean of a field over the box one averaging-domain width to the east
(the `east` slice, line 250). -/
def eastMean (s : ERA5State) (n_av : ℕ) (S : F4) : ℕ → ℤ → ℚ :=
  fun t l => stencilMean (S t l) ((s.j : ℤ) - n_av) ((s.j : ℤ) + n_av + 1)
    ((s.i : ℤ) + 1) ((s.i : ℤ) + 2 * n_av + 2)

/-- Mean of a field over the west box (the `west` slice, line 251). -/
def westMean (s : ERA5State) (n_av : ℕ) (S : F4) : ℕ → ℤ → ℚ :=
  fun t l => stencilMean (S t l) ((s.j : ℤ) - n_av) ((s.j : ℤ) + n_av + 1)
    ((s.i : ℤ) - 2 * n_av - 1) (s.i : ℤ)

/-- Mean of a field over the north box (the `north` slice, line 253). -/
def northMean (s : ERA5State) (n_av : ℕ) (S : F4) : ℕ → ℤ → ℚ :=
  fun t l => stencilMean (S t l) ((s.j : ℤ) + 1) ((s.j : ℤ) + 2 * n_av + 2)
    ((s.i : ℤ) - n_av) ((s.i : ℤ) + n_av + 1)

/-- Mean of a field over the south box (the `south` slice, line 254). -/
def southMean (s : ERA5State) (n_av : ℕ) (S : F4) : ℕ → ℤ → ℚ :=
  fun t l => stencilMean (S t l) ((s.j : ℤ) - 2 * n_av - 1) (s.j : ℤ)
    ((s.i : ℤ) - n_av) ((s.i : ℤ) + n_av + 1)

/-- Second-order advective tendency of a scalar field `S`:
`(-u * grad2c(S west, S east, dx) - v * grad2c(S south, S north, dy))`
evaluated pointwise over the averaging domain and then box-averaged
(lines 290-300). -/
def advect2 (P : Prims) (s : ERA5State) (n_av : ℕ) (S : F4) : ℕ → ℤ → ℚ :=
  fun t l => stencilMean (fun jj ii =>
      -s.u t l jj ii * grad2c (S t l jj (ii-1)) (S t l jj (ii+1)) (dx_est P s)
      - s.v t l jj ii * grad2c (S t l (jj-1) ii) (S t l (jj+1) ii) (dy_est P s))
    ((s.j : ℤ) - n_av) ((s.j : ℤ) + n_av + 1) ((s.i : ℤ) - n_av) ((s.i : ℤ) + n_av + 1)

/-- Fourth-order advective tendency of a scalar field `S` (lines 311-321). -/
def advect4 (P : Prims) (s : ERA5State) (n_av : ℕ) (S : F4) : ℕ → ℤ → ℚ :=
  fun t l => stencilMean (fun jj ii =>
      -s.u t l jj ii * grad4c (S t l jj (ii-2)) (S t l jj (ii-1))
        (S t l jj (ii+1)) (S t l jj (ii+2)) (dx_est P s)
      - s.v t l jj ii * grad4c (S t l (jj-2) ii) (S t l (jj-1) ii)
        (S t l (jj+1) ii) (S t l (jj+2) ii) (dy_est P s))
    ((s.j : ℤ) - n_av) ((s.j : ℤ) + n_av + 1) ((s.i : ℤ) - n_av) ((s.i : ℤ) + n_av + 1)

/-- Box-scheme advective tendency of a scalar field `S`: finite difference
of box-mean values of the east/west and north/south neighbour boxes
(lines 334-344). -/
def advectBox (P : Prims) (s : ERA5State) (n_av : ℕ) (S : F4) : ℕ → ℤ → ℚ :=
  fun t l =>
    -boxMean4 s.u s.j s.i n_av t l * (eastMean s n_av S t l - westMean s n_av S t l)
      / distWE P s n_av
    - boxMean4 s.v s.j s.i n_av t l * (northMean s n_av S t l - southMean s n_av S t l)
      / distNS P s n_av

/-- Second-order v-component geostrophic wind on pressure levels
`vg_p = (grav / fc * grad2c(z_p west, z_p east, dx)).mean` (line 303). -/
def vg_p_2nd (P : Prims) (s : ERA5State) (n_av : ℕ) : ℕ → ℤ → ℚ :=
  fun t l => stencilMean (fun jj ii =>
      P.grav / s.fc * grad2c (s.z_p t l jj (ii-1)) (s.z_p t l jj (ii+1)) (dx_est P s))
    ((s.j : ℤ) - n_av) ((s.j : ℤ) + n_av + 1) ((s.i : ℤ) - n_av) ((s.i : ℤ) + n_av + 1)

/-- Second-order u-component geostrophic wind on pressure levels (line 304). -/
def ug_p_2nd (P : Prims) (s : ERA5State) (n_av : ℕ) : ℕ → ℤ → ℚ :=
  fun t l => stencilMean (fun jj ii =>
      -P.grav / s.fc * grad2c (s.z_p t l (jj-1) ii) (s.z_p t l (jj+1) ii) (dy_est P s))
    ((s.j : ℤ) - n_av) ((s.j : ℤ) + n_av + 1) ((s.i : ℤ) - n_av) ((s.i : ℤ) + n_av + 1)

/-- Fourth-order v-component geostrophic wind on pressure levels (line 324). -/
def vg_p_4th (P : Prims) (s : ERA5State) (n_av : ℕ) : ℕ → ℤ → ℚ :=
  fun t l => stencilMean (fun jj ii =>
      P.grav / s.fc * grad4c (s.z_p t l jj (ii-2)) (s.z_p t l jj (ii-1))
        (s.z_p t l jj (ii+1)) (s.z_p t l jj (ii+2)) (dx_est P s))
    ((s.j : ℤ) - n_av) ((s.j : ℤ) + n_av + 1) ((s.i : ℤ) - n_av) ((s.i : ℤ) + n_av + 1)

/-- Fourth-order u-component geostrophic wind on pressure levels (line 325). -/
def ug_p_4th (P : Prims) (s : ERA5State) (n_av : ℕ) : ℕ → ℤ → ℚ :=
  fun t l => stencilMean (fun jj ii =>
      -P.grav / s.fc * grad4c (s.z_p t l (jj-2) ii) (s.z_p t l (jj-1) ii)
        (s.z_p t l (jj+1) ii) (s.z_p t l (jj+2) ii) (dy_est P s))
    ((s.j : ℤ) - n_av) ((s.j : ℤ) + n_av + 1) ((s.i : ℤ) - n_av) ((s.i : ℤ) + n_av + 1)

/-- Box-scheme v-component geostrophic wind on pressure levels (line 347). -/
def vg_p_box (P : Prims) (s : ERA5State) (n_av : ℕ) : ℕ → ℤ → ℚ :=
  fun t l => P.grav / s.fc * (eastMean s n_av s.z_p t l - westMean s n_av s.z_p t l)
    / distWE P s n_av

/-- Box-scheme u-component geostrophic wind on pressure levels (line 348). -/
def ug_p_box (P : Prims) (s : ERA5State) (n_av : ℕ) : ℕ → ℤ → ℚ :=
  fun t l => -P.grav / s.fc * (northMean s n_av s.z_p t l - southMean s n_av s.z_p t l)
    / distNS P s n_av

/-- Interpolation of a pressure-level geostrophic wind profile onto the
box-mean model-level pressures, per time step (lines 352-356). -/
def interpToModel (s : ERA5State) (gw_p : ℕ → ℤ → ℚ) (p_m : ℕ → ℤ → ℚ) :
    ℕ → ℤ → ℚ :=
  fun t k => interp1d s.p_p
    (List.map (fun ll : ℕ => gw_p t (ll : ℤ)) (List.range s.p_p.length)) (p_m t k)

/-- Assembly of the full forcing record from the box means, the
scheme-specific advective tendencies and the scheme-specific
pressure-level geostrophic wind (lines 256-279 and 351-364). -/
def assemble (s : ERA5State) (n_av : ℕ)
    (advTHL advQT advU advV ugp vgp : ℕ → ℤ → ℚ) : Forcings :=
  let u_m := boxMean4 s.u s.j s.i n_av
  let v_m := boxMean4 s.v s.j s.i n_av
  let p_m := boxMean4 s.p s.j s.i n_av
  let ugi := interpToModel s ugp p_m
  let vgi := interpToModel s vgp p_m
  { z_mean := boxMean4 s.z s.j s.i n_av
    p_mean := p_m
    thl_mean := boxMean4 s.thl s.j s.i n_av
    qt_mean := boxMean4 s.qt s.j s.i n_av
    u_mean := u_m
    v_mean := v_m
    U_mean := boxMean4 s.U s.j s.i n_av
    wls_mean := boxMean4 s.wls s.j s.i n_av
    rho_mean := boxMean4 s.rho s.j s.i n_av
    ps_mean := boxMean3 s.ps s.j s.i n_av
    wth_mean := boxMean3 s.wths s.j s.i n_av
    wq_mean := boxMean3 s.wqs s.j s.i n_av
    cc_mean := boxMean3 s.cc s.j s.i n_av
    z0m_mean := boxMean3 s.z0m s.j s.i n_av
    z0h_mean := boxMean3 s.z0h s.j s.i n_av
    dtthl_sw_mean := boxMean4 s.dthldt_sw s.j s.i n_av
    dtthl_lw_mean := boxMean4 s.dthldt_lw s.j s.i n_av
    dtthl_sw_cs_mean := boxMean4 s.dthldt_sw_cs s.j s.i n_av
    dtthl_lw_cs_mean := boxMean4 s.dthldt_lw_cs s.j s.i n_av
    dtthl_advec := advTHL
    dtqt_advec := advQT
    dtu_advec := advU
    dtv_advec := advV
    ug := ugi
    vg := vgi
    dtu_coriolis := fun t k => s.fc * (v_m t k - vgi t k)
    dtv_coriolis := fun t k => -s.fc * (u_m t k - ugi t k)
    dtu_total := fun t k => advU t k + s.fc * (v_m t k - vgi t k)
    dtv_total := fun t k => advV t k + -s.fc * (u_m t k - ugi t k) }

/-- `Read_ERA.calculate_forcings(n_av, method)` (lines 232-364).  The
dispatch mirrors the `if method == '2nd' / '4th' / 'box'` chain; for any
other method name no branch assigns `ug_p`/`vg_p` and the advective
tendencies, so the interpolation loop raises an unhandled `NameError` and
the call produces no forcing record, modelled as `none`. -/
def calculate_forcings (P : Prims) (s : ERA5State) (n_av : ℕ)
    (method : String) : Option Forcings :=
  if method = "2nd" then
    some (assemble s n_av (advect2 P s n_av s.thl) (advect2 P s n_av s.qt)
      (advect2 P s n_av s.u) (advect2 P s n_av s.v)
      (ug_p_2nd P s n_av) (vg_p_2nd P s n_av))
  else if method = "4th" then
    some (assemble s n_av (advect4 P s n_av s.thl) (advect4 P s n_av s.qt)
      (advect4 P s n_av s.u) (advect4 P s n_av s.v)
      (ug_p_4th P s n_av) (vg_p_4th P s n_av))
  else if method = "box" then
    some (assemble s n_av (advectBox P s n_av s.thl) (advectBox P s n_av s.qt)
      (advectBox P s n_av s.u) (advectBox P s n_av s.v)
      (ug_p_box P s n_av) (vg_p_box P s n_av))
  else none

/-- The Python object as the two stage outputs it carries: the fields
created by the constructor, and the forcing outputs of the most recent
`calculate_forcings` call (none right after loading). -/
structure PyObj where
  load : ERA5State
  forc : Option Forcings

/-- Effect of one `calculate_forcings` call on the object: it writes the
forcing outputs and touches nothing created by the load/derive stage. -/
def calc_on (P : Prims) (o : PyObj) (n_av : ℕ) (method : String) : PyObj :=
  { load := o.load, forc := calculate_forcings P o.load n_av method }

/-- A field is horizontally uniform when it does not depend on the
latitude/longitude indices. -/
def HorizUniform (f : F4) : Prop :=
  ∀ t l la lo la' lo', f t l la lo = f t l la' lo'

/-- The mean of a pointwise-zero expression is zero. -/
theorem stencilMean_eq_zero (g : ℤ → ℤ → ℚ) (j0 j1 i0 i1 : ℤ)
    (h : ∀ jj ii, g jj ii = 0) : stencilMean g j0 j1 i0 i1 = 0 := by
  unfold stencilMean
  rw [Finset.sum_eq_zero (fun jj _ => Finset.sum_eq_zero (fun ii _ => h jj ii))]
  simp

/-- The mean of a constant expression over a nonempty rectangle is that
constant. -/
theorem stencilMean_const (c : ℚ) (j0 j1 i0 i1 : ℤ) (hj : j0 < j1) (hi : i0 < i1) :
    stencilMean (fun _ _ => c) j0 j1 i0 i1 = c := by
  unfold stencilMean
  rw [Finset.sum_const, Finset.sum_const, nsmul_eq_mul, nsmul_eq_mul]
  have hA : (((j1 - j0).toNat : ℕ) : ℚ) ≠ 0 := by
    have hpos : (0 : ℕ) < (j1 - j0).toNat := by omega
    exact_mod_cast hpos.ne'
  have hB : (((i1 - i0).toNat : ℕ) : ℚ) ≠ 0 := by
    have hpos : (0 : ℕ) < (i1 - i0).toNat := by omega
    exact_mod_cast hpos.ne'
  rw [Int.card_Ico, Int.card_Ico]
  push_cast
  field_simp
  ring

/-- A mean respects pointwise equality of the expressions. -/
theorem stencilMean_congr (g g' : ℤ → ℤ → ℚ) (j0 j1 i0 i1 : ℤ)
    (h : ∀ jj ii, g jj ii = g' jj ii) :
    stencilMean g j0 j1 i0 i1 = stencilMean g' j0 j1 i0 i1 := by
  unfold stencilMean
  congr 1
  exact Finset.sum_congr rfl (fun jj _ => Finset.sum_congr rfl (fun ii _ => h jj ii))

/-- The centred difference of equal samples vanishes. -/
theorem grad2c_self (a dx : ℚ) : grad2c a a dx = 0 := by
  unfold grad2c; simp

/-- The fourth-order stencil of equal samples vanishes. -/
theorem grad4c_self (a dx : ℚ) : grad4c a a a a dx = 0 := by
  unfold grad4c
  rw [show a - 8 * a + 8 * a - a = 0 by ring, zero_div]

/-- The centred difference reproduces the exact slope of a field that is
affine in the sample index (samples one index apart on each side). -/
theorem grad2c_linear (a r x dx : ℚ) :
    grad2c (a - r * (x - 1)) (a - r * (x + 1)) dx = -(r / dx) := by
  unfold grad2c
  rw [show a - r * (x + 1) - (a - r * (x - 1)) = -2 * r by ring]
  rcases eq_or_ne dx 0 with h | h
  · simp [h]
  · field_simp; ring

/-- The fourth-order stencil reproduces the exact slope of an affine field. -/
theorem grad4c_linear (a r x dx : ℚ) :
    grad4c (a - r * (x - 2)) (a - r * (x - 1)) (a - r * (x + 1)) (a - r * (x + 2)) dx
      = -(r / dx) := by
  unfold grad4c
  rw [show a - r * (x - 2) - 8 * (a - r * (x - 1)) + 8 * (a - r * (x + 1))
      - (a - r * (x + 2)) = -12 * r by ring]
  rcases eq_or_ne dx 0 with h | h
  · simp [h]
  · field_simp; ring

/-- Membership after the insertion step. -/
theorem mem_insertP (p q : ℚ × ℚ) : ∀ l : List (ℚ × ℚ), q ∈ insertP p l → q = p ∨ q ∈ l := by
  intro l
  induction l with
  | nil => intro h; simpa [insertP] using h
  | cons hd tl ih =>
    intro h
    unfold insertP at h
    by_cases hc : p.1 ≤ hd.1
    · rw [if_pos hc] at h
      simp only [List.mem_cons] at h ⊢
      tauto
    · rw [if_neg hc] at h
      simp only [List.mem_cons] at h ⊢
      rcases h with h | h
      · tauto
      · rcases ih h with h | h <;> tauto

/-- Membership after sorting. -/
theorem mem_sortPairs (q : ℚ × ℚ) : ∀ l : List (ℚ × ℚ), q ∈ sortPairs l → q ∈ l := by
  intro l
  induction l with
  | nil => intro h; simp [sortPairs] at h
  | cons hd tl ih =>
    intro h
    unfold sortPairs at h
    rcases mem_insertP hd q (sortPairs tl) h with h | h
    · simp [h]
    · exact List.mem_cons_of_mem hd (ih h)

/-- Insertion preserves length. -/
theorem length_insertP (p : ℚ × ℚ) (l : List (ℚ × ℚ)) :
    (insertP p l).length = l.length + 1 := by
  induction l with
  | nil => rfl
  | cons hd tl ih =>
    unfold insertP
    by_cases hc : p.1 ≤ hd.1
    · rw [if_pos hc]; rfl
    · rw [if_neg hc]; simp [ih]

/-- Sorting preserves length. -/
theorem length_sortPairs (l : List (ℚ × ℚ)) :
    (sortPairs l).length = l.length := by
  induction l with
  | nil => rfl
  | cons hd tl ih => unfold sortPairs; rw [length_insertP, ih]; rfl

/-- Piecewise-linear evaluation through points of a common ordinate `c`
yields `c`. -/
theorem pwl_const (c x : ℚ) (L : List (ℚ × ℚ)) (hL : ∀ p ∈ L, p.2 = c)
    (hne : L ≠ []) : pwl L x = c := by
  induction L with
  | nil => exact absurd rfl hne
  | cons hd tl ih =>
    obtain ⟨a0, b0⟩ := hd
    have hb0 : b0 = c := hL (a0, b0) (List.mem_cons_self _ _)
    match tl, ih with
    | [], _ => simpa [pwl] using hb0
    | (a1, b1) :: tl2, ih =>
      have hb1 : b1 = c := hL (a1, b1) (List.mem_cons_of_mem _ (List.mem_cons_self _ _))
      match tl2, ih with
      | [], _ =>
        subst hb0; subst hb1
        simp [pwl]
      | (a2, b2) :: tl3, ih =>
        have htl : ∀ p ∈ (a1, b1) :: (a2, b2) :: tl3, p.2 = c :=
          fun p hp => hL p (List.mem_cons_of_mem _ hp)
        by_cases hc : x ≤ a1
        · subst hb0; subst hb1
          simp [pwl, hc]
        · rw [show pwl ((a0, b0) :: (a1, b1) :: (a2, b2) :: tl3) x
              = pwl ((a1, b1) :: (a2, b2) :: tl3) x by simp [pwl, hc]]
          exact ih htl (by simp)

/-- `interp1d` through samples that all carry the same value `c` returns
`c`, whatever the query point (the sampled function is constant, so its
linear interpolant and extrapolant are that constant). -/
theorem interp1d_const (c x : ℚ) (xs ys : List ℚ) (hxs : xs ≠ [])
    (hlen : ys.length = xs.length) (hys : ∀ y ∈ ys, y = c) :
    interp1d xs ys x = c := by
  unfold interp1d
  apply pwl_const
  · intro p hp
    exact hys p.2 (List.of_mem_zip (mem_sortPairs p (xs.zip ys) hp)).2
  · have hzl : (xs.zip ys).length = xs.length := by
      rw [List.length_zip, hlen, Nat.min_self]
    intro hemp
    rw [← List.length_eq_zero] at hemp
    rw [length_sortPairs, hzl] at hemp
    exact hxs (List.length_eq_zero.mp hemp)

/-- Equal clipped coordinates pass the numpy broadcast equality test. -/
theorem npAllEq_true_of_eq (a b : List ℚ) (h : a = b) : npAllEq a b = true := by
  subst h
  unfold npAllEq
  rw [if_pos rfl]
  simp

/-- Clipped coordinates of the same length that differ in any entry fail
the numpy broadcast equality test (the broadcasting escape needs a length
mismatch). -/
theorem npAllEq_false_of_same_length_ne (a b : List ℚ)
    (hl : a.length = b.length) (hne : a ≠ b) : npAllEq a b = false := by
  unfold npAllEq
  rw [if_pos hl]
  exact decide_eq_false hne

/-- A successful run of the constructor yields exactly the assembled
dataset: every error branch of `Read_ERA_init` returns `Except.error`. -/
theorem init_ok_eq (P : Prims) (st : SettingsIn) (files : FilesIn) (raw : RawData)
    (s : ERA5State) (h : Read_ERA_init P st files raw = Except.ok s) :
    s = mk_state P st raw := by
  unfold Read_ERA_init at h
  split_ifs at h
  injection h with h
  exact h.symm

/-- C3: for every time step, grid cell and full level k, the full-level
pressure and height produced by the load stage equal the arithmetic mean
of the two bounding half-level values:
`p[k] = (ph[k] + ph[k+1]) / 2` and `z[k] = (zh[k] + zh[k+1]) / 2`. -/
theorem full_level_is_mean_of_half_levels
    (P : Prims) (st : SettingsIn) (files : FilesIn) (raw : RawData) (s : ERA5State)
    (h : Read_ERA_init P st files raw = Except.ok s) (t : ℕ) (k la lo : ℤ) :
    s.p t k la lo = (s.ph t k la lo + s.ph t (k+1) la lo) / 2
      ∧ s.z t k la lo = (s.zh t k la lo + s.zh t (k+1) la lo) / 2 := by
  obtain rfl := init_ok_eq P st files raw s h
  constructor
  · show ld_p P st raw t k la lo
      = (ld_ph P st raw t k la lo + ld_ph P st raw t (k+1) la lo) / 2
    unfold ld_p; ring
  · show ld_z P st raw t k la lo
      = (ld_zh P st raw t k la lo + ld_zh P st raw t (k+1) la lo) / 2
    unfold ld_z; ring

/-- C6: `calculate_forcings` with a scheme identifier other than
`'box'`, `'2nd'` or `'4th'` produces no forcing output at all — in the
source no dispatch branch runs, so `ug_p`, `vg_p` and the advective
tendencies are never assigned and the interpolation loop dies with an
unhandled `NameError`; no default scheme is substituted. -/
theorem unknown_scheme_is_fatal (P : Prims) (s : ERA5State) (n_av : ℕ)
    (method : String) (h2 : method ≠ "2nd") (h4 : method ≠ "4th")
    (hb : method ≠ "box") :
    calculate_forcings P s n_av method = none := by
  unfold calculate_forcings
  rw [if_neg h2, if_neg h4, if_neg hb]

/-- C8: `calculate_forcings` never mutates anything created by the
load/derive stage — it only writes the forcing outputs — so running it
repeatedly with different configurations against the same loaded dataset
gives, for each configuration, exactly the result of running that
configuration alone. -/
theorem forcings_leave_loaded_fields_unchanged (P : Prims) (s : ERA5State)
    (n1 n2 : ℕ) (m1 m2 : String) :
    (calc_on P (calc_on P ⟨s, none⟩ n1 m1) n2 m2).load = s
      ∧ (calc_on P (calc_on P ⟨s, none⟩ n1 m1) n2 m2).forc
        = (calc_on P ⟨s, none⟩ n2 m2).forc :=
  ⟨rfl, rfl⟩

/-- Projection: the thl advective tendency stored by `assemble`. -/
theorem assemble_dtthl_advec (s : ERA5State) (n_av : ℕ) (a b c d e f : ℕ → ℤ → ℚ) :
    (assemble s n_av a b c d e f).dtthl_advec = a := rfl

/-- Projection: the qt advective tendency stored by `assemble`. -/
theorem assemble_dtqt_advec (s : ERA5State) (n_av : ℕ) (a b c d e f : ℕ → ℤ → ℚ) :
    (assemble s n_av a b c d e f).dtqt_advec = b := rfl

/-- Projection: the u advective tendency stored by `assemble`. -/
theorem assemble_dtu_advec (s : ERA5State) (n_av : ℕ) (a b c d e f : ℕ → ℤ → ℚ) :
    (assemble s n_av a b c d e f).dtu_advec = c := rfl

/-- Projection: the v advective tendency stored by `assemble`. -/
theorem assemble_dtv_advec (s : ERA5State) (n_av : ℕ) (a b c d e f : ℕ → ℤ → ℚ) :
    (assemble s n_av a b c d e f).dtv_advec = d := rfl

/-- Projection: the interpolated u geostrophic wind stored by `assemble`. -/
theorem assemble_ug (s : ERA5State) (n_av : ℕ) (a b c d e f : ℕ → ℤ → ℚ) :
    (assemble s n_av a b c d e f).ug
      = interpToModel s e (boxMean4 s.p s.j s.i n_av) := rfl

/-- Projection: the interpolated v geostrophic wind stored by `assemble`. -/
theorem assemble_vg (s : ERA5State) (n_av : ℕ) (a b c d e f : ℕ → ℤ → ℚ) :
    (assemble s n_av a b c d e f).vg
      = interpToModel s f (boxMean4 s.p s.j s.i n_av) := rfl

/-- Projection: the u Coriolis tendency stored by `assemble`. -/
theorem assemble_dtu_coriolis (s : ERA5State) (n_av : ℕ) (a b c d e f : ℕ → ℤ → ℚ) :
    (assemble s n_av a b c d e f).dtu_coriolis
      = fun t k => s.fc * (boxMean4 s.v s.j s.i n_av t k
        - interpToModel s f (boxMean4 s.p s.j s.i n_av) t k) := rfl

/-- Projection: the v Coriolis tendency stored by `assemble`. -/
theorem assemble_dtv_coriolis (s : ERA5State) (n_av : ℕ) (a b c d e f : ℕ → ℤ → ℚ) :
    (assemble s n_av a b c d e f).dtv_coriolis
      = fun t k => -s.fc * (boxMean4 s.u s.j s.i n_av t k
        - interpToModel s e (boxMean4 s.p s.j s.i n_av) t k) := rfl

/-- Projection: the u box mean stored by `assemble`. -/
theorem assemble_u_mean (s : ERA5State) (n_av : ℕ) (a b c d e f : ℕ → ℤ → ℚ) :
    (assemble s n_av a b c d e f).u_mean = boxMean4 s.u s.j s.i n_av := rfl

/-- Projection: the v box mean stored by `assemble`. -/
theorem assemble_v_mean (s : ERA5State) (n_av : ℕ) (a b c d e f : ℕ → ℤ → ℚ) :
    (assemble s n_av a b c d e f).v_mean = boxMean4 s.v s.j s.i n_av := rfl

/-- The averaging rectangle of a single-cell mean is one cell. -/
theorem stencilMean_single (g : ℤ → ℤ → ℚ) (a c : ℤ) :
    stencilMean g a (a+1) c (c+1) = g a c := by
  unfold stencilMean
  rw [show Finset.Ico a (a+1) = {a} by ext x; simp; omega,
    show Finset.Ico c (c+1) = {c} by ext x; simp; omega]
  simp

/-- With `n_av = 0` a 4-dimensional box mean is the central cell value. -/
theorem boxMean4_at_zero (f : F4) (j i : ℕ) (t : ℕ) (l : ℤ) :
    boxMean4 f j i 0 t l = f t l j i := by
  unfold boxMean4
  norm_num
  exact stencilMean_single (f t l) j i

/-- With `n_av = 0` a 3-dimensional box mean is the central cell value. -/
theorem boxMean3_at_zero (f : F3) (j i : ℕ) (t : ℕ) :
    boxMean3 f j i 0 t = f t j i := by
  unfold boxMean3
  norm_num
  exact stencilMean_single (f t) j i

/-- A box mean of a horizontally uniform field over a nonempty rectangle
is the uniform value. -/
theorem stencilMean_of_uniform (S : F4) (hS : HorizUniform S) (t : ℕ) (l : ℤ)
    (a b c d : ℤ) (hab : a < b) (hcd : c < d) :
    stencilMean (S t l) a b c d = S t l 0 0 := by
  rw [stencilMean_congr (S t l) (fun _ _ => S t l 0 0) a b c d
    (fun jj ii => hS t l jj ii 0 0)]
  exact stencilMean_const _ _ _ _ _ hab hcd

/-- Second-order advective tendency of a horizontally uniform scalar is
pointwise zero. -/
theorem advect2_of_uniform (P : Prims) (s : ERA5State) (n_av : ℕ) (S : F4)
    (hS : HorizUniform S) (t : ℕ) (l : ℤ) : advect2 P s n_av S t l = 0 := by
  unfold advect2
  apply stencilMean_eq_zero
  intro jj ii
  rw [hS t l jj (ii-1) jj (ii+1), hS t l (jj-1) ii (jj+1) ii, grad2c_self, grad2c_self]
  ring

/-- Fourth-order advective tendency of a horizontally uniform scalar is
pointwise zero. -/
theorem advect4_of_uniform (P : Prims) (s : ERA5State) (n_av : ℕ) (S : F4)
    (hS : HorizUniform S) (t : ℕ) (l : ℤ) : advect4 P s n_av S t l = 0 := by
  unfold advect4
  apply stencilMean_eq_zero
  intro jj ii
  rw [hS t l jj (ii-2) jj (ii+2), hS t l jj (ii-1) jj (ii+2), hS t l jj (ii+1) jj (ii+2),
    hS t l (jj-2) ii (jj+2) ii, hS t l (jj-1) ii (jj+2) ii, hS t l (jj+1) ii (jj+2) ii,
    grad4c_self, grad4c_self]
  ring

/-- Box-scheme advective tendency of a horizontally uniform scalar is
zero: the east/west and north/south box means coincide. -/
theorem advectBox_of_uniform (P : Prims) (s : ERA5State) (n_av : ℕ) (S : F4)
    (hS : HorizUniform S) (t : ℕ) (l : ℤ) : advectBox P s n_av S t l = 0 := by
  unfold advectBox eastMean westMean northMean southMean
  rw [stencilMean_of_uniform S hS t l _ _ _ _ (by omega) (by omega),
    stencilMean_of_uniform S hS t l _ _ _ _ (by omega) (by omega),
    stencilMean_of_uniform S hS t l _ _ _ _ (by omega) (by omega),
    stencilMean_of_uniform S hS t l _ _ _ _ (by omega) (by omega)]
  ring

/-- C1: whenever the wind components and the transported scalars are
horizontally uniform, the advective tendencies computed by
`calculate_forcings` are exactly zero under each of the three schemes
`'box'`, `'2nd'` and `'4th'`; the tendency of each scalar (thl, qt, u, v)
vanishes as soon as that scalar itself is uniform. -/
theorem advective_tendency_zero_for_uniform_fields
    (P : Prims) (s : ERA5State) (n_av : ℕ) (method : String)
    (hm : method = "box" ∨ method = "2nd" ∨ method = "4th")
    (hu : HorizUniform s.u) (hv : HorizUniform s.v) :
    ∃ F, calculate_forcings P s n_av method = some F
      ∧ (HorizUniform s.thl → ∀ t l, F.dtthl_advec t l = 0)
      ∧ (HorizUniform s.qt → ∀ t l, F.dtqt_advec t l = 0)
      ∧ (∀ t l, F.dtu_advec t l = 0)
      ∧ (∀ t l, F.dtv_advec t l = 0) := by
  rcases hm with hm | hm | hm <;> subst hm
  · exact ⟨_, rfl,
      fun hthl t l => by
        rw [assemble_dtthl_advec]; exact advectBox_of_uniform P s n_av s.thl hthl t l,
      fun hqt t l => by
        rw [assemble_dtqt_advec]; exact advectBox_of_uniform P s n_av s.qt hqt t l,
      fun t l => by
        rw [assemble_dtu_advec]; exact advectBox_of_uniform P s n_av s.u hu t l,
      fun t l => by
        rw [assemble_dtv_advec]; exact advectBox_of_uniform P s n_av s.v hv t l⟩
  · exact ⟨_, rfl,
      fun hthl t l => by
        rw [assemble_dtthl_advec]; exact advect2_of_uniform P s n_av s.thl hthl t l,
      fun hqt t l => by
        rw [assemble_dtqt_advec]; exact advect2_of_uniform P s n_av s.qt hqt t l,
      fun t l => by
        rw [assemble_dtu_advec]; exact advect2_of_uniform P s n_av s.u hu t l,
      fun t l => by
        rw [assemble_dtv_advec]; exact advect2_of_uniform P s n_av s.v hv t l⟩
  · exact ⟨_, rfl,
      fun hthl t l => by
        rw [assemble_dtthl_advec]; exact advect4_of_uniform P s n_av s.thl hthl t l,
      fun hqt t l => by
        rw [assemble_dtqt_advec]; exact advect4_of_uniform P s n_av s.qt hqt t l,
      fun t l => by
        rw [assemble_dtu_advec]; exact advect4_of_uniform P s n_av s.u hu t l,
      fun t l => by
        rw [assemble_dtv_advec]; exact advect4_of_uniform P s n_av s.v hv t l⟩

/-- C4: with `n_av = 0` every box-mean output of `calculate_forcings`
equals exactly the value of the single central grid cell `(j, i)` at every
time and level, under any of the three schemes. -/
theorem n_av_zero_box_mean_is_single_cell
    (P : Prims) (s : ERA5State) (method : String)
    (hm : method = "box" ∨ method = "2nd" ∨ method = "4th") :
    ∃ F, calculate_forcings P s 0 method = some F
      ∧ (∀ t l, F.z_mean t l = s.z t l s.j s.i
          ∧ F.p_mean t l = s.p t l s.j s.i
          ∧ F.thl_mean t l = s.thl t l s.j s.i
          ∧ F.qt_mean t l = s.qt t l s.j s.i
          ∧ F.u_mean t l = s.u t l s.j s.i
          ∧ F.v_mean t l = s.v t l s.j s.i
          ∧ F.U_mean t l = s.U t l s.j s.i
          ∧ F.wls_mean t l = s.wls t l s.j s.i
          ∧ F.rho_mean t l = s.rho t l s.j s.i
          ∧ F.dtthl_sw_mean t l = s.dthldt_sw t l s.j s.i
          ∧ F.dtthl_lw_mean t l = s.dthldt_lw t l s.j s.i
          ∧ F.dtthl_sw_cs_mean t l = s.dthldt_sw_cs t l s.j s.i
          ∧ F.dtthl_lw_cs_mean t l = s.dthldt_lw_cs t l s.j s.i)
      ∧ (∀ t, F.ps_mean t = s.ps t s.j s.i
          ∧ F.wth_mean t = s.wths t s.j s.i
          ∧ F.wq_mean t = s.wqs t s.j s.i
          ∧ F.cc_mean t = s.cc t s.j s.i
          ∧ F.z0m_mean t = s.z0m t s.j s.i
          ∧ F.z0h_mean t = s.z0h t s.j s.i) := by
  rcases hm with hm | hm | hm <;> subst hm <;>
    exact ⟨_, rfl,
      fun t l => ⟨boxMean4_at_zero s.z s.j s.i t l, boxMean4_at_zero s.p s.j s.i t l,
        boxMean4_at_zero s.thl s.j s.i t l, boxMean4_at_zero s.qt s.j s.i t l,
        boxMean4_at_zero s.u s.j s.i t l, boxMean4_at_zero s.v s.j s.i t l,
        boxMean4_at_zero s.U s.j s.i t l, boxMean4_at_zero s.wls s.j s.i t l,
        boxMean4_at_zero s.rho s.j s.i t l, boxMean4_at_zero s.dthldt_sw s.j s.i t l,
        boxMean4_at_zero s.dthldt_lw s.j s.i t l,
        boxMean4_at_zero s.dthldt_sw_cs s.j s.i t l,
        boxMean4_at_zero s.dthldt_lw_cs s.j s.i t l⟩,
      fun t => ⟨boxMean3_at_zero s.ps s.j s.i t, boxMean3_at_zero s.wths s.j s.i t,
        boxMean3_at_zero s.wqs s.j s.i t, boxMean3_at_zero s.cc s.j s.i t,
        boxMean3_at_zero s.z0m s.j s.i t, boxMean3_at_zero s.z0h s.j s.i t⟩⟩

/-- On a height field affine in the longitude index, the second-order
pressure-level v geostrophic wind is the constant `g/f` times the slope
per unit of the estimated spacing. -/
theorem vg_p_2nd_linear (P : Prims) (s : ERA5State) (n_av : ℕ)
    (a : ℕ → ℤ → ℚ) (r : ℚ)
    (hz : ∀ t l la lo, s.z_p t l la lo = a t l - r * (lo : ℚ)) (t : ℕ) (l : ℤ) :
    vg_p_2nd P s n_av t l = P.grav / s.fc * (-(r / dx_est P s)) := by
  unfold vg_p_2nd
  rw [stencilMean_congr _ (fun _ _ => P.grav / s.fc * (-(r / dx_est P s))) _ _ _ _
    (fun jj ii => by
      rw [hz t l jj (ii-1), hz t l jj (ii+1)]
      push_cast
      rw [grad2c_linear (a t l) r (ii : ℚ) (dx_est P s)])]
  exact stencilMean_const _ _ _ _ _ (by omega) (by omega)

/-- On a height field affine in the longitude index (hence constant in the
latitude index), the second-order pressure-level u geostrophic wind
vanishes. -/
theorem ug_p_2nd_zero (P : Prims) (s : ERA5State) (n_av : ℕ)
    (a : ℕ → ℤ → ℚ) (r : ℚ)
    (hz : ∀ t l la lo, s.z_p t l la lo = a t l - r * (lo : ℚ)) (t : ℕ) (l : ℤ) :
    ug_p_2nd P s n_av t l = 0 := by
  unfold ug_p_2nd
  apply stencilMean_eq_zero
  intro jj ii
  rw [hz t l (jj-1) ii, hz t l (jj+1) ii, grad2c_self]
  ring

/-- Fourth-order analogue of `vg_p_2nd_linear`. -/
theorem vg_p_4th_linear (P : Prims) (s : ERA5State) (n_av : ℕ)
    (a : ℕ → ℤ → ℚ) (r : ℚ)
    (hz : ∀ t l la lo, s.z_p t l la lo = a t l - r * (lo : ℚ)) (t : ℕ) (l : ℤ) :
    vg_p_4th P s n_av t l = P.grav / s.fc * (-(r / dx_est P s)) := by
  unfold vg_p_4th
  rw [stencilMean_congr _ (fun _ _ => P.grav / s.fc * (-(r / dx_est P s))) _ _ _ _
    (fun jj ii => by
      rw [hz t l jj (ii-2), hz t l jj (ii-1), hz t l jj (ii+1), hz t l jj (ii+2)]
      push_cast
      rw [grad4c_linear (a t l) r (ii : ℚ) (dx_est P s)])]
  exact stencilMean_const _ _ _ _ _ (by omega) (by omega)

/-- Fourth-order analogue of `ug_p_2nd_zero`. -/
theorem ug_p_4th_zero (P : Prims) (s : ERA5State) (n_av : ℕ)
    (a : ℕ → ℤ → ℚ) (r : ℚ)
    (hz : ∀ t l la lo, s.z_p t l la lo = a t l - r * (lo : ℚ)) (t : ℕ) (l : ℤ) :
    ug_p_4th P s n_av t l = 0 := by
  unfold ug_p_4th
  apply stencilMean_eq_zero
  intro jj ii
  rw [hz t l (jj-2) ii, hz t l (jj-1) ii, hz t l (jj+1) ii, hz t l (jj+2) ii, grad4c_self]
  ring

/-- C2: for a geopotential height field on pressure levels that decreases
linearly eastward at a constant rate (drop `r` per grid column, i.e.
`dz/dx = -r / dx` with `dx` the spacing estimate the code itself uses) and
is constant in the north-south direction, the geostrophic wind diagnosed
by `calculate_forcings` and interpolated onto the model levels satisfies
`v_g = g/f · dz/dx` and `u_g = 0`, at every model level and time step,
exactly, under either centred scheme. -/
theorem geostrophic_wind_for_linear_eastward_height
    (P : Prims) (s : ERA5State) (n_av : ℕ) (method : String)
    (hm : method = "2nd" ∨ method = "4th")
    (a : ℕ → ℤ → ℚ) (r : ℚ)
    (hz : ∀ t l la lo, s.z_p t l la lo = a t l - r * (lo : ℚ))
    (hpp : s.p_p ≠ []) :
    ∃ F, calculate_forcings P s n_av method = some F
      ∧ ∀ t k, F.vg t k = P.grav / s.fc * (-(r / dx_est P s)) ∧ F.ug t k = 0 := by
  rcases hm with hm | hm <;> subst hm
  · refine ⟨_, rfl, fun t k => ⟨?_, ?_⟩⟩
    · rw [assemble_vg]
      unfold interpToModel
      apply interp1d_const
      · exact hpp
      · rw [List.length_map, List.length_range]
      intro y hy
      simp only [List.mem_map, List.mem_range] at hy
      obtain ⟨ll, _, rfl⟩ := hy
      exact vg_p_2nd_linear P s n_av a r hz t ll
    · rw [assemble_ug]
      unfold interpToModel
      apply interp1d_const
      · exact hpp
      · rw [List.length_map, List.length_range]
      intro y hy
      simp only [List.mem_map, List.mem_range] at hy
      obtain ⟨ll, _, rfl⟩ := hy
      exact ug_p_2nd_zero P s n_av a r hz t ll
  · refine ⟨_, rfl, fun t k => ⟨?_, ?_⟩⟩
    · rw [assemble_vg]
      unfold interpToModel
      apply interp1d_const
      · exact hpp
      · rw [List.length_map, List.length_range]
      intro y hy
      simp only [List.mem_map, List.mem_range] at hy
      obtain ⟨ll, _, rfl⟩ := hy
      exact vg_p_4th_linear P s n_av a r hz t ll
    · rw [assemble_ug]
      unfold interpToModel
      apply interp1d_const
      · exact hpp
      · rw [List.length_map, List.length_range]
      intro y hy
      simp only [List.mem_map, List.mem_range] at hy
      obtain ⟨ll, _, rfl⟩ := hy
      exact ug_p_4th_zero P s n_av a r hz t ll

/-- C5 (amended): the constructor aborts with the fatal integrity error
of the assertion on line 138 exactly when the clipped analysis and
forecast time coordinates fail numpy's broadcast equality test
`np.all(time == time_fc)` — in particular whenever they have the same
length and differ in any entry.  (When one clipped coordinate is a single
record whose value equals every entry of the other, broadcasting passes
the assertion and loading proceeds despite the length mismatch; see the
counterexample.) -/
theorem time_mismatch_aborts_load
    (P : Prims) (st : SettingsIn) (files : FilesIn) (raw : RawData)
    (hf1 : files.an_sfc_files.all files.fexists = true)
    (hf2 : files.an_model_files.all files.fexists = true)
    (hf3 : files.an_pres_files.all files.fexists = true)
    (hf4 : files.fc_model_files.all files.fexists = true) :
    (npAllEq (ld_time st raw) (ld_time_fc st raw) = false →
        Read_ERA_init P st files raw
          = Except.error "Analysis and forecast times are not synced")
      ∧ ((ld_time st raw).length = (ld_time_fc st raw).length →
          ld_time st raw ≠ ld_time_fc st raw →
          Read_ERA_init P st files raw
            = Except.error "Analysis and forecast times are not synced") := by
  have key : npAllEq (ld_time st raw) (ld_time_fc st raw) = false →
      Read_ERA_init P st files raw
        = Except.error "Analysis and forecast times are not synced" := by
    intro hfalse
    unfold Read_ERA_init
    rw [if_pos hf1, if_pos hf2, if_pos hf3, if_pos hf4,
      if_neg (by rw [hfalse]; simp)]
  exact ⟨key, fun hl hne =>
    key (npAllEq_false_of_same_length_ne (ld_time st raw) (ld_time_fc st raw) hl hne)⟩

/-- C7: when any required file of the four data streams does not exist,
the constructor surfaces a precondition failure before any field is read
or derived; no dataset is produced and there is no partial recovery. -/
theorem missing_file_aborts_load
    (P : Prims) (st : SettingsIn) (files : FilesIn) (raw : RawData) (f : String)
    (hmem : f ∈ files.an_sfc_files ++ files.an_model_files
      ++ files.an_pres_files ++ files.fc_model_files)
    (hmiss : files.fexists f = false) :
    ∃ e, Read_ERA_init P st files raw = Except.error e := by
  unfold Read_ERA_init
  split_ifs with h1 h2 h3 h4 h5
  · exfalso
    simp only [List.mem_append] at hmem
    rw [List.all_eq_true] at h1 h2 h3 h4
    rcases hmem with ((hm | hm) | hm) | hm
    · have hx := h1 f hm; rw [hmiss] at hx; exact absurd hx (by simp)
    · have hx := h2 f hm; rw [hmiss] at hx; exact absurd hx (by simp)
    · have hx := h3 f hm; rw [hmiss] at hx; exact absurd hx (by simp)
    · have hx := h4 f hm; rw [hmiss] at hx; exact absurd hx (by simp)
  all_goals exact ⟨_, rfl⟩

/-- C9: the four forecast-stream radiative tendencies are read with the
time-index range `t0_an..t1_an` derived from the analysis time coordinate
(loaded record t is raw forecast record `t0_an + t`, flipped in level and
latitude and divided by the Exner field); the indices `t0_fc..t1_fc`
derived from the forecast stream's own time coordinate only build the
`time_fc` array that the synchronisation check compares, so replacing the
forecast time coordinate leaves every loaded tendency unchanged whenever
the load still succeeds. -/
theorem forecast_fields_read_with_analysis_indices
    (P : Prims) (st : SettingsIn) (files : FilesIn) (raw : RawData) (s : ERA5State)
    (h : Read_ERA_init P st files raw = Except.ok s) :
    (∀ t l la lo,
        s.dthldt_sw t l la lo
          = raw.mttswr (t0_an st raw + t) ((raw.nfull : ℤ) - 1 - l)
              ((raw.nlat : ℤ) - 1 - la) lo / s.exn t l la lo
        ∧ s.dthldt_lw t l la lo
          = raw.mttlwr (t0_an st raw + t) ((raw.nfull : ℤ) - 1 - l)
              ((raw.nlat : ℤ) - 1 - la) lo / s.exn t l la lo
        ∧ s.dthldt_sw_cs t l la lo
          = raw.mttswrcs (t0_an st raw + t) ((raw.nfull : ℤ) - 1 - l)
              ((raw.nlat : ℤ) - 1 - la) lo / s.exn t l la lo
        ∧ s.dthldt_lw_cs t l la lo
          = raw.mttlwrcs (t0_an st raw + t) ((raw.nfull : ℤ) - 1 - l)
              ((raw.nlat : ℤ) - 1 - la) lo / s.exn t l la lo)
      ∧ s.time_fc = listSlice raw.fc_time (t0_fc st raw) (t1_fc st raw)
      ∧ ∀ (T' : List ℚ) (s' : ERA5State),
          Read_ERA_init P st files { raw with fc_time := T' } = Except.ok s' →
          ∀ t l la lo, s'.dthldt_sw t l la lo = s.dthldt_sw t l la lo
            ∧ s'.dthldt_lw t l la lo = s.dthldt_lw t l la lo
            ∧ s'.dthldt_sw_cs t l la lo = s.dthldt_sw_cs t l la lo
            ∧ s'.dthldt_lw_cs t l la lo = s.dthldt_lw_cs t l la lo := by
  obtain rfl := init_ok_eq P st files raw s h
  refine ⟨fun t l la lo => ⟨rfl, rfl, rfl, rfl⟩, rfl, ?_⟩
  intro T' s' h'
  obtain rfl := init_ok_eq P st files _ s' h'
  intro t l la lo
  exact ⟨rfl, rfl, rfl, rfl⟩

/-- C10: the Coriolis parameter is computed as
`fc = 2 · 7.2921e-5 · sin(deg2rad(central_lat))` from the requested
central latitude of the configuration — the same value for any grid, also
when the resolved nearest grid cell lies at a different latitude — and the
Coriolis tendencies of every `calculate_forcings` configuration use
exactly this `fc`. -/
theorem coriolis_uses_requested_latitude
    (P : Prims) (st : SettingsIn) (files : FilesIn) (raw : RawData) (s : ERA5State)
    (h : Read_ERA_init P st files raw = Except.ok s) :
    s.fc = 2 * 7.2921e-5 * P.sin (st.central_lat * P.pi / 180)
      ∧ (∀ (raw' : RawData) (s' : ERA5State),
          Read_ERA_init P st files raw' = Except.ok s' → s'.fc = s.fc)
      ∧ ∀ (n_av : ℕ) (method : String) (F : Forcings),
          calculate_forcings P s n_av method = some F →
          ∀ t k, F.dtu_coriolis t k = s.fc * (F.v_mean t k - F.vg t k)
            ∧ F.dtv_coriolis t k = -s.fc * (F.u_mean t k - F.ug t k) := by
  obtain rfl := init_ok_eq P st files raw s h
  refine ⟨rfl, ?_, ?_⟩
  · intro raw' s' h'
    obtain rfl := init_ok_eq P st files raw' s' h'
    rfl
  · intro n_av method F hF
    unfold calculate_forcings at hF
    split_ifs at hF
    · injection hF with hF; subst hF; intro t k; exact ⟨rfl, rfl⟩
    · injection hF with hF; subst hF; intro t k; exact ⟨rfl, rfl⟩
    · injection hF with hF; subst hF; intro t k; exact ⟨rfl, rfl⟩

/-- A concrete interpretation of the primitives, for evaluating the
theorems on explicit inputs. -/
def demoP : Prims :=
  { sin := fun x => x
    exp := fun x => x
    sqrt := fun _ => 0
    pi := 3
    grav := 10
    Rd := 287
    cpd := 1004
    Lv := 2500000
    calc_exner := fun _ => 1
    calc_virtual_temp := fun T q a b c d => T + q + a + b + c + d
    calc_half_level_pressure := fun ps k => ps + (k : ℚ)
    calc_half_level_Zg := fun _ _ k => (k : ℚ)
    dlon := fun a b c => b - a + c
    dlat := fun a b => b - a }

/-- A concrete settings record: centre (2, 2), window hours 0..2. -/
def demoSettings : SettingsIn :=
  { central_lat := 2, central_lon := 2, start_h := 0, end_h := 2 }

/-- Concrete file lists on a file system where everything exists. -/
def demoFiles : FilesIn :=
  { an_sfc_files := ["sa.nc"], an_model_files := ["ma.nc"]
    an_pres_files := ["pa.nc"], fc_model_files := ["mf.nc"]
    fexists := fun _ => true }

/-- Concrete file lists on a file system missing the model-level analysis
file. -/
def demoFilesMissing : FilesIn :=
  { an_sfc_files := ["sa.nc"], an_model_files := ["ma.nc"]
    an_pres_files := ["pa.nc"], fc_model_files := ["mf.nc"]
    fexists := fun f => f != "ma.nc" }

/-- A concrete raw dataset: 3 records at hours 0, 1, 2 in every stream, a
5×5 grid, 2 model levels, 2 pressure levels, all variables 1. -/
def demoRaw : RawData :=
  { sfc_time := [0, 1, 2]
    fma_time := [0, 1, 2]
    fc_time := [0, 1, 2]
    latitude := [4, 3, 2, 1, 0]
    longitude := [0, 1, 2, 3, 4]
    nfull := 2
    nlat := 5
    nlon := 5
    u := fun _ _ _ _ => 1
    v := fun _ _ _ _ => 1
    w := fun _ _ _ _ => 1
    t := fun _ _ _ _ => 1
    q := fun _ _ _ _ => 1
    clwc := fun _ _ _ _ => 1
    ciwc := fun _ _ _ _ => 1
    crwc := fun _ _ _ _ => 1
    cswc := fun _ _ _ _ => 1
    lnsp := fun _ _ _ _ => 1
    mttswr := fun _ _ _ _ => 1
    mttlwr := fun _ _ _ _ => 1
    mttswrcs := fun _ _ _ _ => 1
    mttlwrcs := fun _ _ _ _ => 1
    skt := fun _ _ _ => 1
    ishf := fun _ _ _ => 1
    ie := fun _ _ _ => 1
    tcc := fun _ _ _ => 1
    fsr := fun _ _ _ => 1
    flsr := fun _ _ _ => 1
    z_pl := fun _ _ _ _ => 1
    pl_levels := [300, 500] }

/-- `demoRaw` with the grid latitudes replaced by 10..14, so that the
resolved nearest latitude (10) differs from the requested one (2). -/
def demoRaw2 : RawData := { demoRaw with latitude := [14, 13, 12, 11, 10] }

/-- `demoRaw` with a foreign record appended to the forecast time
coordinate; the resolved forecast window is still hours 0..2. -/
def demoRawFC : RawData := { demoRaw with fc_time := [0, 1, 2, 50] }

/-- `demoRaw` with a desynchronised model-level analysis time coordinate:
the clipped coordinates are [0, 1, 5] and [0, 1, 2]. -/
def demoRawBad : RawData := { demoRaw with fma_time := [0, 1, 5] }

/-- `demoRaw` with analysis times all 5 and a single forecast record 5:
the clipped coordinates are [5, 5, 5] and [5], which differ, but numpy
broadcasting makes `np.all(time == time_fc)` true. -/
def demoRawB : RawData := { demoRaw with fma_time := [5, 5, 5], fc_time := [5] }

/-- The clipped analysis and forecast time coordinates of the demo dataset
coincide. -/
theorem demo_time_eq : ld_time demoSettings demoRaw = ld_time_fc demoSettings demoRaw := by
  norm_num [ld_time, ld_time_fc, listSlice, t0_an, t1_an, t0_fc, t1_fc,
    argmin, argminAux, demoSettings, demoRaw]

/-- Loading the demo dataset succeeds. -/
theorem demo_init : Read_ERA_init demoP demoSettings demoFiles demoRaw
    = Except.ok (mk_state demoP demoSettings demoRaw) := by
  unfold Read_ERA_init
  rw [if_pos (by decide), if_pos (by decide), if_pos (by decide), if_pos (by decide),
    if_pos (npAllEq_true_of_eq _ _ demo_time_eq)]

/-- Loading the demo dataset with the shifted latitude grid succeeds. -/
theorem demo_init2 : Read_ERA_init demoP demoSettings demoFiles demoRaw2
    = Except.ok (mk_state demoP demoSettings demoRaw2) := by
  unfold Read_ERA_init
  rw [if_pos (by decide), if_pos (by decide), if_pos (by decide), if_pos (by decide),
    if_pos (npAllEq_true_of_eq _ _
      (show ld_time demoSettings demoRaw2 = ld_time_fc demoSettings demoRaw2
        from demo_time_eq))]

/-- The clipped time coordinates still coincide after appending a foreign
forecast record. -/
theorem demo_time_eq_fc :
    ld_time demoSettings demoRawFC = ld_time_fc demoSettings demoRawFC := by
  norm_num [ld_time, ld_time_fc, listSlice, t0_an, t1_an, t0_fc, t1_fc,
    argmin, argminAux, demoSettings, demoRawFC, demoRaw]

/-- Loading the demo dataset with the extended forecast time coordinate
succeeds. -/
theorem demo_init_fc : Read_ERA_init demoP demoSettings demoFiles demoRawFC
    = Except.ok (mk_state demoP demoSettings demoRawFC) := by
  unfold Read_ERA_init
  rw [if_pos (by decide), if_pos (by decide), if_pos (by decide), if_pos (by decide),
    if_pos (npAllEq_true_of_eq _ _ demo_time_eq_fc)]

/-- The desynchronised demo dataset fails the time comparison. -/
theorem demo_time_ne :
    ld_time demoSettings demoRawBad ≠ ld_time_fc demoSettings demoRawBad := by
  norm_num [ld_time, ld_time_fc, listSlice, t0_an, t1_an, t0_fc, t1_fc,
    argmin, argminAux, demoSettings, demoRawBad, demoRaw]

/-- The desynchronised demo dataset has clipped coordinates of equal
length (three records each). -/
theorem demo_bad_len :
    (ld_time demoSettings demoRawBad).length
      = (ld_time_fc demoSettings demoRawBad).length := by
  norm_num [ld_time, ld_time_fc, listSlice, t0_an, t1_an, t0_fc, t1_fc,
    argmin, argminAux, demoSettings, demoRawBad, demoRaw]

/-- The broadcast demo dataset has differing clipped coordinates. -/
theorem demo_b_time_ne :
    ld_time demoSettings demoRawB ≠ ld_time_fc demoSettings demoRawB := by
  intro h
  norm_num [ld_time, ld_time_fc, listSlice, t0_an, t1_an, t0_fc, t1_fc,
    argmin, argminAux, demoSettings, demoRawB, demoRaw] at h
  exact absurd h (List.cons_ne_nil 5 [5])

/-- numpy broadcasting accepts the single forecast record of the
broadcast demo dataset against the three equal analysis records. -/
theorem demo_b_npAllEq :
    npAllEq (ld_time demoSettings demoRawB) (ld_time_fc demoSettings demoRawB)
      = true := by
  norm_num [npAllEq, ld_time, ld_time_fc, listSlice, t0_an, t1_an, t0_fc, t1_fc,
    argmin, argminAux, demoSettings, demoRawB, demoRaw]

/-- A concrete loaded dataset with horizontally uniform wind and scalar
fields and a geopotential height on pressure levels that drops by 2 per
grid column eastward. -/
def uState : ERA5State :=
  { lats := [0, 1, 2, 3, 4]
    lons := [0, 1, 2, 3, 4]
    time := [0, 1, 2]
    time_fc := [0, 1, 2]
    time_sec := [0, 3600, 7200]
    nfull := 2
    nhalf := 3
    nlat := 5
    nlon := 5
    ntime := 3
    i := 2
    j := 2
    u := fun _ _ _ _ => 3
    v := fun _ _ _ _ => 4
    w := fun _ _ _ _ => 0
    T := fun _ _ _ _ => 280
    q := fun _ _ _ _ => 8
    qc := fun _ _ _ _ => 0
    qi := fun _ _ _ _ => 0
    qr := fun _ _ _ _ => 0
    qs := fun _ _ _ _ => 0
    Ts := fun _ _ _ => 285
    H := fun _ _ _ => 50
    wqs := fun _ _ _ => 1
    cc := fun _ _ _ => 1
    z0m := fun _ _ _ => 1
    z0h := fun _ _ _ => 1
    z_p := fun _ _ _ lo => 100 - 2 * (lo : ℚ)
    p_p := [100000, 50000]
    ql := fun _ _ _ _ => 0
    qt := fun _ _ _ _ => 8
    ps := fun _ _ _ => 100000
    Tv := fun _ _ _ _ => 281
    ph := fun _ _ _ _ => 90000
    zh := fun _ _ _ _ => 100
    p := fun _ _ _ _ => 90000
    z := fun _ _ _ _ => 100
    exn := fun _ _ _ _ => 1
    th := fun _ _ _ _ => 280
    thl := fun _ _ _ _ => 280
    rho := fun _ _ _ _ => 1
    wls := fun _ _ _ _ => 0
    U := fun _ _ _ _ => 5
    Tvs := fun _ _ _ => 286
    rhos := fun _ _ _ => 1
    exns := fun _ _ _ => 1
    wths := fun _ _ _ => 1
    fc := 5
    dthldt_sw := fun _ _ _ _ => 0
    dthldt_lw := fun _ _ _ _ => 0
    dthldt_sw_cs := fun _ _ _ _ => 0
    dthldt_lw_cs := fun _ _ _ _ => 0 }

/-- Witness for C1 at the uniform demo dataset, n_av = 1, scheme '2nd'. -/
theorem advective_tendency_zero_for_uniform_fields_witness :
    ∃ F, calculate_forcings demoP uState 1 "2nd" = some F
      ∧ (HorizUniform uState.thl → ∀ t l, F.dtthl_advec t l = 0)
      ∧ (HorizUniform uState.qt → ∀ t l, F.dtqt_advec t l = 0)
      ∧ (∀ t l, F.dtu_advec t l = 0)
      ∧ (∀ t l, F.dtv_advec t l = 0) :=
  advective_tendency_zero_for_uniform_fields demoP uState 1 "2nd"
    (Or.inr (Or.inl rfl)) (fun _ _ _ _ _ _ => rfl) (fun _ _ _ _ _ _ => rfl)

/-- Witness for C2 at the demo dataset whose height field drops by 2 per
column (slope `dz/dx = -2/dx`), n_av = 1, scheme '2nd'. -/
theorem geostrophic_wind_for_linear_eastward_height_witness :
    ∃ F, calculate_forcings demoP uState 1 "2nd" = some F
      ∧ ∀ t k, F.vg t k = demoP.grav / uState.fc * (-(2 / dx_est demoP uState))
        ∧ F.ug t k = 0 :=
  geostrophic_wind_for_linear_eastward_height demoP uState 1 "2nd" (Or.inl rfl)
    (fun _ _ => 100) 2 (fun _ _ _ _ => rfl) (by decide)

/-- Witness for C3 at the loaded demo dataset. -/
theorem full_level_is_mean_of_half_levels_witness :
    (mk_state demoP demoSettings demoRaw).p 0 0 0 0
      = ((mk_state demoP demoSettings demoRaw).ph 0 0 0 0
        + (mk_state demoP demoSettings demoRaw).ph 0 1 0 0) / 2
      ∧ (mk_state demoP demoSettings demoRaw).z 0 0 0 0
        = ((mk_state demoP demoSettings demoRaw).zh 0 0 0 0
          + (mk_state demoP demoSettings demoRaw).zh 0 1 0 0) / 2 :=
  full_level_is_mean_of_half_levels demoP demoSettings demoFiles demoRaw
    (mk_state demoP demoSettings demoRaw) demo_init 0 0 0 0

/-- Witness for C4 at the demo dataset, scheme 'box'. -/
theorem n_av_zero_box_mean_is_single_cell_witness :
    ∃ F, calculate_forcings demoP uState 0 "box" = some F
      ∧ (∀ t l, F.z_mean t l = uState.z t l uState.j uState.i
          ∧ F.p_mean t l = uState.p t l uState.j uState.i
          ∧ F.thl_mean t l = uState.thl t l uState.j uState.i
          ∧ F.qt_mean t l = uState.qt t l uState.j uState.i
          ∧ F.u_mean t l = uState.u t l uState.j uState.i
          ∧ F.v_mean t l = uState.v t l uState.j uState.i
          ∧ F.U_mean t l = uState.U t l uState.j uState.i
          ∧ F.wls_mean t l = uState.wls t l uState.j uState.i
          ∧ F.rho_mean t l = uState.rho t l uState.j uState.i
          ∧ F.dtthl_sw_mean t l = uState.dthldt_sw t l uState.j uState.i
          ∧ F.dtthl_lw_mean t l = uState.dthldt_lw t l uState.j uState.i
          ∧ F.dtthl_sw_cs_mean t l = uState.dthldt_sw_cs t l uState.j uState.i
          ∧ F.dtthl_lw_cs_mean t l = uState.dthldt_lw_cs t l uState.j uState.i)
      ∧ (∀ t, F.ps_mean t = uState.ps t uState.j uState.i
          ∧ F.wth_mean t = uState.wths t uState.j uState.i
          ∧ F.wq_mean t = uState.wqs t uState.j uState.i
          ∧ F.cc_mean t = uState.cc t uState.j uState.i
          ∧ F.z0m_mean t = uState.z0m t uState.j uState.i
          ∧ F.z0h_mean t = uState.z0h t uState.j uState.i) :=
  n_av_zero_box_mean_is_single_cell demoP uState "box" (Or.inl rfl)

/-- Witness for C5 at the desynchronised demo dataset: equal-length
clipped coordinates [0,1,2] and [0,1,5] differ, so loading aborts. -/
theorem time_mismatch_aborts_load_witness :
    Read_ERA_init demoP demoSettings demoFiles demoRawBad
      = Except.error "Analysis and forecast times are not synced" :=
  (time_mismatch_aborts_load demoP demoSettings demoFiles demoRawBad
    (by decide) (by decide) (by decide) (by decide)).2 demo_bad_len demo_time_ne

/-- Counterexample for C5 as originally stated: with analysis records
[5, 5, 5] and the single forecast record [5] the resolved time
coordinates differ (the forecast series is truncated), yet numpy
broadcasting passes the line-138 assertion and the constructor proceeds
instead of aborting. -/
theorem time_mismatch_counterexample :
    ld_time demoSettings demoRawB ≠ ld_time_fc demoSettings demoRawB
      ∧ Read_ERA_init demoP demoSettings demoFiles demoRawB
        = Except.ok (mk_state demoP demoSettings demoRawB) := by
  refine ⟨demo_b_time_ne, ?_⟩
  unfold Read_ERA_init
  rw [if_pos (by decide), if_pos (by decide), if_pos (by decide), if_pos (by decide),
    if_pos demo_b_npAllEq]

/-- Witness for C6 at the unknown scheme name '5th'. -/
theorem unknown_scheme_is_fatal_witness :
    calculate_forcings demoP uState 1 "5th" = none :=
  unknown_scheme_is_fatal demoP uState 1 "5th" (by decide) (by decide) (by decide)

/-- Witness for C7 with the model-level analysis file missing. -/
theorem missing_file_aborts_load_witness :
    ∃ e, Read_ERA_init demoP demoSettings demoFilesMissing demoRaw = Except.error e :=
  missing_file_aborts_load demoP demoSettings demoFilesMissing demoRaw "ma.nc"
    (by decide) (by decide)

/-- Witness for C9: the loaded radiative tendency is unchanged when the
forecast stream carries an extra far-away record, and `time_fc` is built
from the forecast-derived indices. -/
theorem forecast_fields_read_with_analysis_indices_witness :
    (mk_state demoP demoSettings demoRawFC).dthldt_sw 0 0 0 0
      = (mk_state demoP demoSettings demoRaw).dthldt_sw 0 0 0 0
      ∧ (mk_state demoP demoSettings demoRaw).time_fc
        = listSlice demoRaw.fc_time (t0_fc demoSettings demoRaw)
            (t1_fc demoSettings demoRaw) :=
  ⟨((forecast_fields_read_with_analysis_indices demoP demoSettings demoFiles demoRaw
      (mk_state demoP demoSettings demoRaw) demo_init).2.2
      [0, 1, 2, 50] (mk_state demoP demoSettings demoRawFC) demo_init_fc 0 0 0 0).1,
    (forecast_fields_read_with_analysis_indices demoP demoSettings demoFiles demoRaw
      (mk_state demoP demoSettings demoRaw) demo_init).2.1⟩

/-- Witness for C10: the demo dataset and its latitude-shifted variant
(resolved latitude 10 instead of 2) carry the same Coriolis parameter,
the one computed from the requested latitude. -/
theorem coriolis_uses_requested_latitude_witness :
    (mk_state demoP demoSettings demoRaw).fc
      = 2 * 7.2921e-5 * demoP.sin (demoSettings.central_lat * demoP.pi / 180)
      ∧ (mk_state demoP demoSettings demoRaw2).fc
        = (mk_state demoP demoSettings demoRaw).fc :=
  ⟨(coriolis_uses_requested_latitude demoP demoSettings demoFiles demoRaw
      (mk_state demoP demoSettings demoRaw) demo_init).1,
    (coriolis_uses_requested_latitude demoP demoSettings demoFiles demoRaw
      (mk_state demoP demoSettings demoRaw) demo_init).2.1
      demoRaw2 (mk_state demoP demoSettings demoRaw2) demo_init2⟩
